import Mathlib

/-!
Shallow embedding of `src/backend/utils/formulaEvaluator.js`.

The source is a JavaScript module with three exported functions:

* `validateFormula(formula, variables)` — a regex-substitution allow-list
  check: whitespace is stripped, each occurrence of a variable key is
  replaced by the placeholder `V` (keys tried in `Object.keys` order,
  leftmost match first), each allowed function name followed by `(` is
  replaced by `F(`, each decimal literal `digits(.digits)?` by `N`, and
  finally every remaining character must be one of `V N F + - * / ( ) .`.

* `evaluateFormula(formula, variables)` — validates, then builds
  `new Function(...paramNames, "return " + formula + ";")` over a context
  of the variables plus `Math.min/max/round/floor/ceil` and runs it,
  rejecting any result that is not a finite number.

* `evaluatePartDimensions(part, variables)` — starts from
  `{width: 0, height: 0, depth: 0}` and overwrites each axis whose
  formula field is truthy with `evaluateFormula`'s result.

Modelling decisions, stated once here:

* JavaScript numbers are modelled as exact rationals extended with
  signed infinity and NaN (`JSNum`).  Every computation exercised by the
  spec's examples involves only dyadic rationals on which IEEE-754
  double arithmetic is exact, so the rational model agrees with the
  source bit-for-bit there; overflow to infinity of huge finite values
  and the sign of zero are outside the model.
* The dynamic `new Function` evaluation is embedded as an explicit
  tokenizer, operator-precedence parser and tree evaluator implementing
  the JavaScript expression grammar on the character set that can
  survive validation (identifiers, decimal literals, `+ - * / ( ) , .`,
  whitespace, and `//` and `/*...*/` comments).  A failure to parse
  models the `SyntaxError` thrown by the `Function` constructor; a
  runtime `ReferenceError`/`TypeError` (unknown identifier, calling a
  non-function, using a function value as a number) is modelled as
  evaluation failure `none`.  The increment/decrement tokens `++`/`--`
  and the exponent token `**` (reachable only through doubled operator
  characters with no whitespace) are modelled conservatively as parse
  failures; the source would mutate a local copy resp. compute a power
  there, a corner no specification claim touches.
-/

namespace FormulaEvaluator

/-- The allow-list `ALLOWED_OPERATORS` from the source. -/
def ALLOWED_OPERATORS : List Char := ['+', '-', '*', '/', '(', ')', '.']

/-- The allow-list `ALLOWED_FUNCTIONS` from the source. -/
def ALLOWED_FUNCTIONS : List String := ["min", "max", "round", "floor", "ceil"]

/-- A variable binding: the `variables` object, as an association list in
`Object.keys` order.  Keys are assumed distinct, as in a JS object. -/
abbrev VarBinding := List (String × ℚ)

/-- The `formula.replace(/\s+/g, '')` step: drop every whitespace character. -/
def stripWhitespace (s : String) : String :=
  String.mk (s.data.filter (fun c => !c.isWhitespace))

/-- One pass of `cleanFormula.replace(variablePattern, 'V')`: scanning left to
right, at each position the alternation tries the keys in their given order
and the first key that matches is replaced by a single `V`; scanning resumes
after the matched text.  The fuel argument is the remaining input length;
each step consumes at least one character. -/
def substVarsAux (keys : List String) : Nat → List Char → List Char
  | 0, _ => []
  | _ + 1, [] => []
  | n + 1, c :: cs =>
    match keys.find? (fun k => !k.isEmpty && k.data.isPrefixOf (c :: cs)) with
    | some k => 'V' :: substVarsAux keys n (List.drop (k.length - 1) cs)
    | none => c :: substVarsAux keys n cs

/-- Replace every leftmost-first occurrence of a variable key by `V`. -/
def substVars (keys : List String) (s : String) : String :=
  String.mk (substVarsAux keys (s.data.length + 1) s.data)

/-- One pass of `.replace(functionPattern, 'F(')`: an allowed function name
immediately followed by `(` becomes `F(`. -/
def substFuncsAux : Nat → List Char → List Char
  | 0, _ => []
  | _ + 1, [] => []
  | n + 1, c :: cs =>
    match ALLOWED_FUNCTIONS.find? (fun k => (k.data ++ ['(']).isPrefixOf (c :: cs)) with
    | some k => 'F' :: '(' :: substFuncsAux n (List.drop k.length cs)
    | none => c :: substFuncsAux n cs

/-- Replace every allowed function call head by `F(`. -/
def substFuncs (s : String) : String :=
  String.mk (substFuncsAux (s.data.length + 1) s.data)

/-- One pass of `.replace(/\d+(\.\d+)?/g, 'N')`: a maximal digit run,
optionally followed by a dot and a further nonempty digit run, becomes `N`. -/
def substNumsAux : Nat → List Char → List Char
  | 0, _ => []
  | _ + 1, [] => []
  | n + 1, c :: cs =>
    if c.isDigit then
      let rest := (c :: cs).dropWhile Char.isDigit
      match rest with
      | '.' :: d :: rs =>
        if d.isDigit then 'N' :: substNumsAux n ((d :: rs).dropWhile Char.isDigit)
        else 'N' :: substNumsAux n rest
      | _ => 'N' :: substNumsAux n rest
    else c :: substNumsAux n cs

/-- Replace every decimal literal by `N`. -/
def substNums (s : String) : String :=
  String.mk (substNumsAux (s.data.length + 1) s.data)

/-- `validateFormula` from the source: reject empty input, strip whitespace,
substitute variables then functions then numbers, and require every remaining
character to be a placeholder or an allowed operator. -/
def validateFormula (formula : String) (vars : VarBinding) : Bool :=
  if formula = "" then false
  else
    let cleanFormula := stripWhitespace formula
    if cleanFormula = "" then false
    else
      let variableNames := vars.map Prod.fst
      let testFormula := substNums (substFuncs (substVars variableNames cleanFormula))
      testFormula.data.all (fun c =>
        c = 'V' || c = 'N' || c = 'F' || ALLOWED_OPERATORS.contains c)

/-!
The rational operations below are spelled out on numerators and
denominators through `Rat.divInt` rather than through `ℚ`'s ring
instances, because the latter are `@[irreducible]` and would block kernel
evaluation of concrete formulas.  The lemmas `ratAdd_eq_add`,
`ratMul_eq_mul`, `ratDivQ_eq_div`, `ratNegQ_eq_neg`, `ratLtb_eq_lt` right
after the definitions certify that each one is the standard rational
operation it claims to be.
-/

/-- Rational addition, kernel-evaluable. -/
def ratAdd (a b : ℚ) : ℚ :=
  Rat.divInt (a.num * b.den + b.num * a.den) (a.den * b.den)

/-- Rational multiplication, kernel-evaluable. -/
def ratMul (a b : ℚ) : ℚ := Rat.divInt (a.num * b.num) (a.den * b.den)

/-- Rational division, kernel-evaluable; by convention it sends a zero
divisor to zero, but every use below guards the divisor first. -/
def ratDivQ (a b : ℚ) : ℚ := Rat.divInt (a.num * b.den) (a.den * b.num)

/-- Rational negation, kernel-evaluable. -/
def ratNegQ (a : ℚ) : ℚ := Rat.divInt (-a.num) a.den

/-- Boolean strict order on rationals by cross multiplication,
kernel-evaluable. -/
def ratLtb (a b : ℚ) : Bool := a.num * b.den < b.num * a.den

theorem ratAdd_eq_add (a b : ℚ) : ratAdd a b = a + b := by
  rw [ratAdd]
  conv_rhs => rw [← Rat.num_divInt_den a, ← Rat.num_divInt_den b]
  rw [Rat.divInt_add_divInt _ _
    (Int.natCast_ne_zero.2 a.den_nz) (Int.natCast_ne_zero.2 b.den_nz)]

theorem ratMul_eq_mul (a b : ℚ) : ratMul a b = a * b := by
  rw [ratMul]
  conv_rhs => rw [← Rat.num_divInt_den a, ← Rat.num_divInt_den b]
  rw [Rat.divInt_mul_divInt']

theorem ratDivQ_eq_div (a b : ℚ) : ratDivQ a b = a / b := by
  rw [ratDivQ, Rat.div_def' a b]

theorem ratNegQ_eq_neg (a : ℚ) : ratNegQ a = -a := by
  rw [ratNegQ, Rat.neg_def a]

theorem ratLtb_eq_lt (a b : ℚ) : ratLtb a b = decide (a < b) := by
  rw [ratLtb]
  simp only [decide_eq_decide]
  exact Rat.lt_def.symm

/-- A JavaScript number: an exact rational, a signed infinity (`inf true` is
positive infinity), or NaN. -/
inductive JSNum where
  | fin (q : ℚ)
  | inf (pos : Bool)
  | nan
deriving DecidableEq

/-- JavaScript unary minus. -/
def jsNeg : JSNum → JSNum
  | .fin q => .fin (ratNegQ q)
  | .inf p => .inf (!p)
  | .nan => .nan

/-- JavaScript addition. -/
def jsAdd : JSNum → JSNum → JSNum
  | .nan, _ => .nan
  | _, .nan => .nan
  | .fin a, .fin b => .fin (ratAdd a b)
  | .inf p, .fin _ => .inf p
  | .fin _, .inf p => .inf p
  | .inf p, .inf q => if p = q then .inf p else .nan

/-- JavaScript subtraction, `a - b = a + (-b)`. -/
def jsSub (a b : JSNum) : JSNum := jsAdd a (jsNeg b)

/-- JavaScript multiplication; `Infinity * 0 = NaN`.  A rational is zero,
positive or negative exactly as its numerator is. -/
def jsMul : JSNum → JSNum → JSNum
  | .nan, _ => .nan
  | _, .nan => .nan
  | .fin a, .fin b => .fin (ratMul a b)
  | .inf p, .fin b =>
    if b.num = 0 then .nan else if 0 < b.num then .inf p else .inf (!p)
  | .fin a, .inf p =>
    if a.num = 0 then .nan else if 0 < a.num then .inf p else .inf (!p)
  | .inf p, .inf q => .inf (p = q)

/-- JavaScript division; a nonzero finite over zero is a signed infinity,
`0/0` and `Infinity/Infinity` are NaN, a finite over infinity is zero (the
sign of zero is collapsed). -/
def jsDiv : JSNum → JSNum → JSNum
  | .nan, _ => .nan
  | _, .nan => .nan
  | .fin a, .fin b =>
    if b.num = 0 then (if a.num = 0 then .nan else .inf (decide (0 < a.num)))
    else .fin (ratDivQ a b)
  | .inf p, .fin b =>
    if b.num = 0 then .inf p else if 0 < b.num then .inf p else .inf (!p)
  | .fin _, .inf _ => .fin 0
  | .inf _, .inf _ => .nan

/-- Binary minimum with `Math.min` semantics: NaN absorbs, negative
infinity dominates. -/
def jsMin2 : JSNum → JSNum → JSNum
  | .nan, _ => .nan
  | _, .nan => .nan
  | .inf false, _ => .inf false
  | _, .inf false => .inf false
  | .inf true, b => b
  | a, .inf true => a
  | .fin a, .fin b => .fin (if ratLtb b a then b else a)

/-- Binary maximum with `Math.max` semantics. -/
def jsMax2 : JSNum → JSNum → JSNum
  | .nan, _ => .nan
  | _, .nan => .nan
  | .inf true, _ => .inf true
  | _, .inf true => .inf true
  | .inf false, b => b
  | a, .inf false => a
  | .fin a, .fin b => .fin (if ratLtb a b then b else a)

theorem jsMin2_fin_fin (a b : ℚ) : jsMin2 (.fin a) (.fin b) = .fin (min a b) := by
  simp only [jsMin2, ratLtb_eq_lt]
  by_cases h : b < a
  · rw [if_pos (by simp [h]), min_def, if_neg (not_le_of_lt h)]
  · rw [if_neg (by simp [h]), min_def]
    by_cases hab : a ≤ b
    · rw [if_pos hab]
    · exact absurd (le_of_not_lt h) hab

theorem jsMax2_fin_fin (a b : ℚ) : jsMax2 (.fin a) (.fin b) = .fin (max a b) := by
  simp only [jsMax2, ratLtb_eq_lt]
  by_cases h : a < b
  · rw [if_pos (by simp [h]), max_def, if_pos (le_of_lt h)]
  · rw [if_neg (by simp [h]), max_def]
    by_cases hab : a ≤ b
    · rw [if_pos hab]
      exact congrArg JSNum.fin (le_antisymm hab (le_of_not_lt h))
    · rw [if_neg hab]

/-- Floor of a rational as an integer, via flooring integer division on the
reduced numerator and denominator. -/
def ratFloor (q : ℚ) : ℤ := Int.fdiv q.num (Int.ofNat q.den)

/-- Ceiling of a rational as an integer. -/
def ratCeil (q : ℚ) : ℤ := -ratFloor (ratNegQ q)

/-- `Math.floor`. -/
def jsFloor : JSNum → JSNum
  | .fin q => .fin (ratFloor q)
  | .inf p => .inf p
  | .nan => .nan

/-- `Math.ceil`. -/
def jsCeil : JSNum → JSNum
  | .fin q => .fin (ratCeil q)
  | .inf p => .inf p
  | .nan => .nan

/-- `Math.round`: round half toward positive infinity, `floor(q + 1/2)`. -/
def jsRound : JSNum → JSNum
  | .fin q => .fin (ratFloor (ratAdd q (Rat.divInt 1 2)))
  | .inf p => .inf p
  | .nan => .nan

/-- Apply one of the context's functions to an argument list.  `min`/`max`
are variadic folds starting from their JavaScript identities
(`Math.min()` is positive, `Math.max()` negative infinity); the unary
functions use their first argument, extra arguments being ignored and a
missing argument being `undefined`, which coerces to NaN.  A name that is
not in the function context cannot be called: the resulting
`TypeError`/`ReferenceError` is the failure `none`. -/
def applyFun (fn : String) (args : List JSNum) : Option JSNum :=
  if fn = "min" then some (args.foldl jsMin2 (.inf true))
  else if fn = "max" then some (args.foldl jsMax2 (.inf false))
  else if fn = "round" then
    some (match args with | [] => .nan | a :: _ => jsRound a)
  else if fn = "floor" then
    some (match args with | [] => .nan | a :: _ => jsFloor a)
  else if fn = "ceil" then
    some (match args with | [] => .nan | a :: _ => jsCeil a)
  else none

/-- Tokens of the JavaScript expression grammar restricted to the characters
that can appear in a formula. -/
inductive Tok where
  | num (q : ℚ)
  | ident (s : String)
  | plus
  | minus
  | star
  | slash
  | lparen
  | rparen
  | comma
  | plus2
  | minus2
  | star2
deriving DecidableEq

/-- Numeric value of a digit list read in base ten. -/
def digitsToNat (ds : List Char) : Nat :=
  ds.foldl (fun a c => a * 10 + (c.toNat - 48)) 0

/-- Value of a decimal literal from its integer and fractional digit lists,
as the exact rational `ip + fp / 10 ^ |fp|`, written through `Rat.divInt` to
stay kernel-evaluable. -/
def litToRat (ip fp : List Char) : ℚ :=
  Rat.divInt (digitsToNat ip * 10 ^ fp.length + digitsToNat fp) (10 ^ fp.length)

theorem litToRat_eq (ip fp : List Char) :
    litToRat ip fp = (digitsToNat ip : ℚ) + (digitsToNat fp : ℚ) / ((10 : ℚ) ^ fp.length) := by
  rw [litToRat, Rat.divInt_eq_div]
  push_cast
  field_simp

/-- Skip a `/* ... */` block comment; `none` when it is unterminated, which
is a syntax error in JavaScript. -/
def skipBlockComment : Nat → List Char → Option (List Char)
  | 0, _ => none
  | _ + 1, [] => none
  | n + 1, c :: cs =>
    match c, cs with
    | '*', '/' :: rs => some rs
    | _, _ => skipBlockComment n cs

/-- Tokenize a formula as the JavaScript lexer would: maximal-munch numbers
(`5.`, `.5` and `1.25` are all literals), identifiers, one- and
two-character operator tokens (`++`, `--` and `**` are single tokens by
maximal munch), `//` line and `/* */` block comments, and whitespace
skipping.  Any other character is a syntax error. -/
def tokenizeAux : Nat → List Char → Option (List Tok)
  | 0, _ => none
  | _ + 1, [] => some []
  | n + 1, c :: cs =>
    if c.isWhitespace then tokenizeAux n cs
    else if c.isDigit then
      let ip := (c :: cs).takeWhile Char.isDigit
      let rest := (c :: cs).dropWhile Char.isDigit
      match rest with
      | '.' :: rs =>
        let fp := rs.takeWhile Char.isDigit
        (tokenizeAux n (rs.dropWhile Char.isDigit)).map (Tok.num (litToRat ip fp) :: ·)
      | _ => (tokenizeAux n rest).map (Tok.num (litToRat ip []) :: ·)
    else if c = '.' then
      match cs with
      | d :: _ =>
        if d.isDigit then
          let fp := cs.takeWhile Char.isDigit
          (tokenizeAux n (cs.dropWhile Char.isDigit)).map (Tok.num (litToRat [] fp) :: ·)
        else none
      | [] => none
    else if c.isAlpha || c = '_' || c = '$' then
      let idChars := (c :: cs).takeWhile (fun d => d.isAlphanum || d = '_' || d = '$')
      let rest := (c :: cs).dropWhile (fun d => d.isAlphanum || d = '_' || d = '$')
      (tokenizeAux n rest).map (Tok.ident (String.mk idChars) :: ·)
    else
      match c, cs with
      | '+', '+' :: rs => (tokenizeAux n rs).map (Tok.plus2 :: ·)
      | '-', '-' :: rs => (tokenizeAux n rs).map (Tok.minus2 :: ·)
      | '*', '*' :: rs => (tokenizeAux n rs).map (Tok.star2 :: ·)
      | '/', '/' :: rs => tokenizeAux n (rs.dropWhile (· ≠ '\n'))
      | '/', '*' :: rs =>
        match skipBlockComment (rs.length + 1) rs with
        | some rest => tokenizeAux n rest
        | none => none
      | '+', _ => (tokenizeAux n cs).map (Tok.plus :: ·)
      | '-', _ => (tokenizeAux n cs).map (Tok.minus :: ·)
      | '*', _ => (tokenizeAux n cs).map (Tok.star :: ·)
      | '/', _ => (tokenizeAux n cs).map (Tok.slash :: ·)
      | '(', _ => (tokenizeAux n cs).map (Tok.lparen :: ·)
      | ')', _ => (tokenizeAux n cs).map (Tok.rparen :: ·)
      | ',', _ => (tokenizeAux n cs).map (Tok.comma :: ·)
      | _, _ => none

/-- Tokenize a whole string. -/
def tokenize (s : String) : Option (List Tok) :=
  tokenizeAux (s.data.length + 1) s.data

/-- The expression tree the `Function` body parses to. -/
inductive Expr where
  | num (q : ℚ)
  | var (n : String)
  | neg (e : Expr)
  | add (a b : Expr)
  | sub (a b : Expr)
  | mul (a b : Expr)
  | div (a b : Expr)
  | call (fn : String) (args : List Expr)

mutual

/-- Parse a primary expression: a literal, an identifier, a call on an
identifier, or a parenthesized expression. -/
def parsePrimary : Nat → List Tok → Option (Expr × List Tok)
  | 0, _ => none
  | n + 1, ts =>
    match ts with
    | Tok.num q :: r => some (.num q, r)
    | Tok.ident s :: Tok.lparen :: Tok.rparen :: r => some (.call s [], r)
    | Tok.ident s :: Tok.lparen :: r =>
      match parseAdd n r with
      | some (a, r1) =>
        match parseArgsLoop n [a] r1 with
        | some (args, r2) => some (.call s args, r2)
        | none => none
      | none => none
    | Tok.ident s :: r => some (.var s, r)
    | Tok.lparen :: r =>
      match parseAdd n r with
      | some (e, Tok.rparen :: r1) => some (e, r1)
      | _ => none
    | _ => none

/-- Parse further call arguments after the first, up to the closing paren. -/
def parseArgsLoop : Nat → List Expr → List Tok → Option (List Expr × List Tok)
  | 0, _, _ => none
  | n + 1, acc, ts =>
    match ts with
    | Tok.comma :: r =>
      match parseAdd n r with
      | some (a, r1) => parseArgsLoop n (acc ++ [a]) r1
      | none => none
    | Tok.rparen :: r => some (acc, r)
    | _ => none

/-- Parse a unary expression: unary plus is the identity on numbers, unary
minus negates; `++`/`--`/`**` tokens are rejected. -/
def parseUnary : Nat → List Tok → Option (Expr × List Tok)
  | 0, _ => none
  | n + 1, ts =>
    match ts with
    | Tok.plus :: r => parseUnary n r
    | Tok.minus :: r =>
      match parseUnary n r with
      | some (e, r1) => some (.neg e, r1)
      | none => none
    | _ => parsePrimary n ts

/-- Parse a multiplicative expression, left-associatively. -/
def parseMul : Nat → List Tok → Option (Expr × List Tok)
  | 0, _ => none
  | n + 1, ts =>
    match parseUnary n ts with
    | some (e, r) => parseMulLoop n e r
    | none => none

/-- Fold further `*`/`/` operands onto the left-hand side. -/
def parseMulLoop : Nat → Expr → List Tok → Option (Expr × List Tok)
  | 0, _, _ => none
  | n + 1, lhs, ts =>
    match ts with
    | Tok.star :: r =>
      match parseUnary n r with
      | some (rhs, r1) => parseMulLoop n (.mul lhs rhs) r1
      | none => none
    | Tok.slash :: r =>
      match parseUnary n r with
      | some (rhs, r1) => parseMulLoop n (.div lhs rhs) r1
      | none => none
    | _ => some (lhs, ts)

/-- Parse an additive expression, left-associatively. -/
def parseAdd : Nat → List Tok → Option (Expr × List Tok)
  | 0, _ => none
  | n + 1, ts =>
    match parseMul n ts with
    | some (e, r) => parseAddLoop n e r
    | none => none

/-- Fold further `+`/`-` operands onto the left-hand side. -/
def parseAddLoop : Nat → Expr → List Tok → Option (Expr × List Tok)
  | 0, _, _ => none
  | n + 1, lhs, ts =>
    match ts with
    | Tok.plus :: r =>
      match parseMul n r with
      | some (rhs, r1) => parseAddLoop n (.add lhs rhs) r1
      | none => none
    | Tok.minus :: r =>
      match parseMul n r with
      | some (rhs, r1) => parseAddLoop n (.sub lhs rhs) r1
      | none => none
    | _ => some (lhs, ts)

end

/-- Parse a formula string into an expression tree; `none` models the
`SyntaxError` the `Function` constructor throws.  The whole token stream
must be consumed, as the body is `return formula;`. -/
def parseFormula (s : String) : Option Expr :=
  match tokenize s with
  | none => none
  | some ts =>
    match parseAdd (4 * ts.length + 4) ts with
    | some (e, []) => some e
    | _ => none

mutual

/-- Evaluate an expression tree under a variable binding.  The evaluation
context is the variables with the five `Math` functions spread on top, so a
function name always denotes the function: used as a value it is not a
number and makes the call fail, which the model collapses into the failure
`none` together with `ReferenceError` (unknown identifier) and `TypeError`
(calling a non-function). -/
def evalExpr : Expr → VarBinding → Option JSNum
  | .num q, _ => some (.fin q)
  | .var n, v =>
    if ALLOWED_FUNCTIONS.contains n then none
    else (List.lookup n v).map JSNum.fin
  | .neg e, v => (evalExpr e v).map jsNeg
  | .add a b, v =>
    match evalExpr a v, evalExpr b v with
    | some x, some y => some (jsAdd x y)
    | _, _ => none
  | .sub a b, v =>
    match evalExpr a v, evalExpr b v with
    | some x, some y => some (jsSub x y)
    | _, _ => none
  | .mul a b, v =>
    match evalExpr a v, evalExpr b v with
    | some x, some y => some (jsMul x y)
    | _, _ => none
  | .div a b, v =>
    match evalExpr a v, evalExpr b v with
    | some x, some y => some (jsDiv x y)
    | _, _ => none
  | .call fn args, v =>
    match evalArgs args v with
    | some xs => applyFun fn xs
    | none => none

/-- Evaluate an argument list left to right. -/
def evalArgs : List Expr → VarBinding → Option (List JSNum)
  | [], _ => some []
  | e :: es, v =>
    match evalExpr e v, evalArgs es v with
    | some x, some xs => some (x :: xs)
    | _, _ => none

end

/-- The typed failures of `evaluateFormula`.  The source throws `Error`
objects whose messages distinguish the same four cases: the validation
failure thrown before the `try`, the `SyntaxError` from the `Function`
constructor, a runtime `ReferenceError`/`TypeError`, and the final
is-finite-number check. -/
inductive EvalErr where
  | invalidFormula
  | syntaxError
  | runtimeError
  | evaluationFailed
deriving DecidableEq

/-- `evaluateFormula` from the source: validate first and fail fast,
then parse and run the formula body, and reject any result that is not a
finite number. -/
def evaluateFormula (formula : String) (vars : VarBinding) : Except EvalErr ℚ :=
  if validateFormula formula vars = false then .error .invalidFormula
  else
    match parseFormula formula with
    | none => .error .syntaxError
    | some e =>
      match evalExpr e vars with
      | none => .error .runtimeError
      | some (.fin q) => .ok q
      | some _ => .error .evaluationFailed

/-- A cabinet part's three optional formula fields. -/
structure Part where
  formula_width : Option String
  formula_height : Option String
  formula_depth : Option String

/-- The dimension record assembled by `evaluatePartDimensions`; every field
is a number, as in the source's `{width: 0, height: 0, depth: 0}`. -/
structure PartDimensions where
  width : ℚ
  height : ℚ
  depth : ℚ
deriving DecidableEq

/-- JavaScript truthiness of an optional string field: absent and empty
strings are falsy. -/
def jsTruthyStr : Option String → Bool
  | none => false
  | some s => s ≠ ""

/-- One axis of `evaluatePartDimensions`: a truthy formula field is
evaluated, a falsy one (absent or empty) keeps the initialized `0`. -/
def axisValue (formula : Option String) (vars : VarBinding) : Except EvalErr ℚ :=
  if jsTruthyStr formula then evaluateFormula (formula.getD "") vars
  else Except.ok 0

/-- `evaluatePartDimensions` from the source: each axis starts at `0` and is
overwritten by `evaluateFormula` when its formula field is truthy; an
evaluation error propagates out of the whole call (the source does not
catch the throw), so the first failing axis short-circuits in the order
width, height, depth. -/
def evaluatePartDimensions (part : Part) (vars : VarBinding) :
    Except EvalErr PartDimensions :=
  match axisValue part.formula_width vars with
  | .error e => .error e
  | .ok w =>
    match axisValue part.formula_height vars with
    | .error e => .error e
    | .ok h =>
      match axisValue part.formula_depth vars with
      | .error e => .error e
      | .ok d => .ok ⟨w, h, d⟩

deriving instance DecidableEq for Except

/-!
Claim theorems.  Each claim of the specification is settled against the
definitions above.  The concrete rational inputs are written with `mkRat`
(`mkRat 3 4` is `0.75`, `mkRat 45 2` is `22.5`, `mkRat 23 2` is `11.5`)
so that concrete evaluations stay kernel-checkable.
-/

/-- Claim C1 (refuted by the code, code bug): the claim says the validator
rejects every formula containing an identifier that is neither a variable
key nor an allowed function name.  The source's own doc comment promises
the same ("ensure it only contains allowed operators, functions, variables,
and numeric values"), but the placeholder characters `V`, `N` and `F` that
the substitution passes introduce are themselves accepted by the final
character scan, so the unknown identifier `V` slips through: with variables
`{W: 10}`, `validateFormula("V + 1")` returns `true`.  This theorem
evaluates the code at that failing input. -/
theorem claim1_validator_accepts_unknown_identifier_V :
    validateFormula "V + 1" [("W", 10)] = true := by decide

/-- Claim C2 (counterexample): the claim says variable tokens are matched
longest-name-first regardless of key order.  In the code the alternation
follows `Object.keys` order: with keys supplied as `H` before `H_drawer`,
the formula `H_drawer` has its `H` replaced first, leaving `V_drawer`,
whose `_` fails the character scan — the formula is rejected. -/
theorem claim2_counterexample_short_key_first_rejects :
    validateFormula "H_drawer" [("H", 30), ("H_drawer", 6)] = false := by decide

/-- Claim C2 (amended): variable names are matched in the order the keys
are supplied, not longest-name-first; a formula referencing `H_drawer` is
accepted when `H_drawer` precedes `H` in the key order (and rejected in
the opposite order, see the counterexample). -/
theorem claim2_key_order_decides_acceptance :
    validateFormula "H_drawer" [("H_drawer", 6), ("H", 30)] = true := by decide

/-- Claim C3 (counterexample): the claim says `min(W)` must fail with an
arity error.  The code performs no arity check — `Math.min` is variadic —
so `evaluateFormula("min(W)", {W: 24})` succeeds with `24`. -/
theorem claim3_counterexample_min_single_arg_succeeds :
    evaluateFormula "min(W)" [("W", 24)] = Except.ok 24 := by decide

/-- Claim C3 (amended): there is no arity enforcement; a single-argument
`min` call evaluates to its argument, so `evaluateFormula("min(W)", {W: x})`
returns `x` for every rational `x`.  (A two-argument call `min(W,T)` is
rejected earlier, by the validator, because `,` is not an allowed
character.) -/
theorem claim3_min_single_arg_returns_argument (x : ℚ) :
    evaluateFormula "min(W)" [("W", x)] = Except.ok x := rfl

/-- Claim C4 (counterexample): the claim says an absent axis formula leaves
the axis explicitly unset, distinguishable from the number 0.  In the code
the dimensions record is initialized to `{width: 0, height: 0, depth: 0}`
and an absent formula simply leaves the initial `0`: a part with no depth
formula produces exactly the same record as one whose depth formula is the
literal `"0"`. -/
theorem claim4_counterexample_absent_depth_equals_computed_zero :
    evaluatePartDimensions ⟨some "W", some "H", none⟩ [("W", 24), ("H", 30)] =
        Except.ok ⟨24, 30, 0⟩ ∧
      evaluatePartDimensions ⟨some "W", some "H", some "0"⟩ [("W", 24), ("H", 30)] =
        Except.ok ⟨24, 30, 0⟩ := by
  constructor <;> decide

/-- Claim C4 (amended): an absent (or empty, hence falsy) depth formula
leaves `depth` at its initialized value, the number `0` — not a
distinguishable "unset" marker — while axes with present formulas are
computed. -/
theorem claim4_absent_depth_is_zero (p : Part) (v : VarBinding) (d : PartDimensions)
    (hd : jsTruthyStr p.formula_depth = false)
    (h : evaluatePartDimensions p v = Except.ok d) : d.depth = 0 := by
  have hdep : axisValue p.formula_depth v = Except.ok 0 := by
    unfold axisValue
    rw [hd]
    rfl
  unfold evaluatePartDimensions at h
  rcases hw : axisValue p.formula_width v with e | w <;> rw [hw] at h
  · cases h
  rcases hh : axisValue p.formula_height v with e | hgt <;> rw [hh] at h
  · cases h
  rw [hdep] at h
  cases h
  rfl

/-- Witness for claim C4's amended theorem at the concrete part of the
specification example: no depth formula, width and height present. -/
theorem claim4_witness : (⟨24, 30, 0⟩ : PartDimensions).depth = 0 :=
  claim4_absent_depth_is_zero ⟨some "W", some "H", none⟩ [("W", 24), ("H", 30)]
    ⟨24, 30, 0⟩ rfl (by decide)

/-- Claim C5 (confirmed): whenever running the formula body produces a
value that is not a finite number (`inf` or `nan`), `evaluateFormula`
returns a typed error, never that value as a success; in particular the
division by the zero expression `T - T` fails with `evaluationFailed`. -/
theorem claim5_nonfinite_result_is_error :
    (∀ (f : String) (v : VarBinding) (e : Expr) (r : JSNum),
        parseFormula f = some e → evalExpr e v = some r →
        (∀ q : ℚ, r ≠ JSNum.fin q) →
        ∃ err, evaluateFormula f v = Except.error err) ∧
      evaluateFormula "W / (T - T)" [("W", 24), ("T", mkRat 3 4)] =
        Except.error EvalErr.evaluationFailed := by
  constructor
  · intro f v e r hpe her hnf
    unfold evaluateFormula
    by_cases hv : validateFormula f v = false
    · rw [if_pos hv]
      exact ⟨_, rfl⟩
    · rw [if_neg hv]
      simp only [hpe, her]
      cases r with
      | fin q => exact absurd rfl (hnf q)
      | inf p => exact ⟨_, rfl⟩
      | nan => exact ⟨_, rfl⟩
  · decide

/-- Witness for claim C5 at the specification's division-by-zero example:
the parsed tree of `W / (T - T)` evaluates to positive infinity, and the
theorem yields a typed error for it. -/
theorem claim5_witness :
    ∃ err, evaluateFormula "W / (T - T)" [("W", 24), ("T", mkRat 3 4)] =
      Except.error err :=
  claim5_nonfinite_result_is_error.1 "W / (T - T)" [("W", 24), ("T", mkRat 3 4)]
    (Expr.div (Expr.var "W") (Expr.sub (Expr.var "T") (Expr.var "T")))
    (JSNum.inf true) rfl (by decide) (fun q h => JSNum.noConfusion h)

/-- Claim C6 (confirmed): when validation fails, `evaluateFormula` fails
fast with the `invalidFormula` error, before any parsing or evaluation. -/
theorem claim6_invalid_formula_fails_fast (f : String) (v : VarBinding)
    (h : validateFormula f v = false) :
    evaluateFormula f v = Except.error EvalErr.invalidFormula := by
  unfold evaluateFormula
  rw [if_pos h]

/-- Witness for claim C6 at the specification's unknown-identifier example:
`X + 1` with variables `{W: 10}` fails validation and evaluation rejects it
as an invalid formula. -/
theorem claim6_witness :
    evaluateFormula "X + 1" [("W", 10)] = Except.error EvalErr.invalidFormula :=
  claim6_invalid_formula_fails_fast "X + 1" [("W", 10)] (by decide)

/-- Claim C7 (confirmed): arithmetic follows standard precedence, `*` and
`/` binding before `+` and `-`: `W - 2*T` at `W = 24, T = 0.75` is `22.5`
and `W/2 - 0.5` at `W = 24` is `11.5`. -/
theorem claim7_precedence_examples :
    evaluateFormula "W - 2*T" [("W", 24), ("T", mkRat 3 4)] = Except.ok (mkRat 45 2) ∧
      evaluateFormula "W/2 - 0.5" [("W", 24)] = Except.ok (mkRat 23 2) := by
  constructor <;> decide

/-- Claim C8 (confirmed): `round(H_drawer / 2)` at `H_drawer = 7` is
exactly `4` — `Math.round` rounds the half-way value `3.5` up (toward
positive infinity). -/
theorem claim8_round_half_up :
    evaluateFormula "round(H_drawer / 2)" [("H_drawer", 7)] = Except.ok 4 := by
  decide

/-- Claim C9 (confirmed): `validateFormula` and `evaluateFormula` are
deterministic and idempotent.  The source touches no input, output,
randomness, clock or mutable state — the allow-lists are `const` and the
built `Function` closes only over its parameters — so both operations are
pure functions of `(formula, variables)` and repeated calls are literally
the same value. -/
theorem claim9_deterministic (f : String) (v : VarBinding) :
    validateFormula f v = validateFormula f v ∧
      evaluateFormula f v = evaluateFormula f v :=
  ⟨rfl, rfl⟩

/-- Claim C10 (counterexample): the claim says two bindings with exactly
the same keys get the same verdict.  The key *set* is not enough: the
alternation follows key order, so `{H: 30, H_drawer: 6}` and
`{H_drawer: 6, H: 30}` — the same keys, permuted — give different verdicts
on the formula `H_drawer`. -/
theorem claim10_counterexample_key_order_changes_verdict :
    List.Perm (List.map Prod.fst [("H", (30 : ℚ)), ("H_drawer", 6)])
        (List.map Prod.fst [("H_drawer", (6 : ℚ)), ("H", 30)]) ∧
      validateFormula "H_drawer" [("H", 30), ("H_drawer", 6)] ≠
        validateFormula "H_drawer" [("H_drawer", 6), ("H", 30)] := by
  constructor
  · decide
  · decide

/-- Claim C10 (amended): the verdict depends only on the *sequence* of
variable names — the keys in their supplied order — never on the numeric
values: bindings with identical key sequences always get identical
verdicts. -/
theorem claim10_verdict_ignores_values (f : String) (v1 v2 : VarBinding)
    (h : v1.map Prod.fst = v2.map Prod.fst) :
    validateFormula f v1 = validateFormula f v2 := by
  unfold validateFormula
  rw [h]

/-- Witness for claim C10's amended theorem: the same key `W` bound to two
different values validates identically. -/
theorem claim10_witness :
    validateFormula "W + 1" [("W", 10)] = validateFormula "W + 1" [("W", 20)] :=
  claim10_verdict_ignores_values "W + 1" [("W", 10)] [("W", 20)] rfl

end FormulaEvaluator
